import Mathlib

/-!
Verification of the agent-coordination core of `rzapply/api_server/app.py`.

The module keeps its shared state in module-level containers:
`AGENT_PENDING_TASKS` (a deque), `AGENT_RUNNING_TASKS`, `AGENT_CLIENTS`,
`AGENT_RESULTS` (dicts), `AGENT_WS_CONNECTIONS` (dict of live sockets) and
`AGENT_WS_IDLE` (a set), all mutated under one `asyncio.Lock`.

We embed Python dicts as association lists with insertion-order semantics
(updating an existing key rewrites it in place, a fresh key is appended at
the tail), sets as duplicate-free lists in insertion order, and the deque
as a list whose head is the front.  `uuid.uuid4().hex` is modelled by a
fresh-counter in the state (within one run the generated identifiers are
pairwise distinct, which is the only property the code relies on).
Timestamps (`datetime.utcnow`) are a `Nat` supplied by each event.
Whether a WebSocket `send_json` succeeds is recorded as a `Bool` carried
by the connection.  Handlers are modelled as atomic state transitions
(the code serialises all shared-state mutation under `AGENT_LOCK` on a
single event loop); the mutually recursive
`_dispatch_tasks`/`_drop_ws_connection` pair is given an explicit fuel,
which every recursive call decreases.
-/

/-- `dict.get(k)` on an insertion-ordered association list. -/
def lookupA {α : Type} : List (String × α) → String → Option α
  | [], _ => none
  | p :: l, k => if p.1 == k then some p.2 else lookupA l k

/-- The in-place rewrite applied to one entry when a dict key is
overwritten. -/
def updEntry {α : Type} (k : String) (v : α) (p : String × α) :
    String × α :=
  if p.1 == k then (k, v) else p

/-- `dict[k] = v`: rewrite the existing entry in place, else append. -/
def insertA {α : Type} (l : List (String × α)) (k : String) (v : α) :
    List (String × α) :=
  if (lookupA l k).isSome then l.map (updEntry k v)
  else l ++ [(k, v)]

/-- The keep-predicate of a dict `pop`: entries whose key differs. -/
def notKeyB {α : Type} (k : String) (p : String × α) : Bool :=
  !(p.1 == k)

/-- `dict.pop(k, None)`: drop every entry with key `k`. -/
def eraseA {α : Type} (l : List (String × α)) (k : String) :
    List (String × α) :=
  l.filter (notKeyB k)

/-- `set.add x` preserving insertion order. -/
def addSet (l : List String) (x : String) : List String :=
  if l.contains x then l else l ++ [x]

/-- `set.discard x`. -/
def delSet (l : List String) (x : String) : List String :=
  l.filter (fun y => !(y == x))

/-- Python truthiness of an optional string: `None` and `""` are falsy. -/
def pyStrSome (o : Option String) : Bool :=
  match o with
  | none => false
  | some s => !(s == "")

/-- A task dict as built by `enqueue_task` (`payload.dict()` plus the
assigned `task_id`); the same object travels through the pending queue,
the running table and the WebSocket `task` packet. -/
structure TaskRec where
  task_id : Option String := none
  zip_url : Option String := none
  zip_base64 : Option String := none
  zip_filename : Option String := none
  config : List (String × String) := []
  cleanup : Bool := true
  headless : Option Bool := none
deriving Repr, DecidableEq

/-- An entry of `AGENT_CLIENTS` (the dict built by `register_agent` /
the WebSocket register branch; `task_id` is absent at registration). -/
structure AgentClient where
  client_id : String
  hostname : String := ""
  platform : String := ""
  python_version : String := ""
  headless : Option Bool := none
  status : String
  task_id : Option String := none
  last_seen : Nat
deriving Repr, DecidableEq

/-- An entry of `AGENT_RUNNING_TASKS`: `channel` is `some "ws"` for push
dispatch and `none` for a long-poll hand-off (the poll path sets no
`channel` key). -/
structure RunningInfo where
  client_id : String
  task : TaskRec
  started_at : Nat
  channel : Option String := none
deriving Repr, DecidableEq

/-- A validated `TaskResultPayload`. -/
structure ResultRec where
  client_id : String
  task_id : String
  status : String
  reason : String
  logs : List String := []
  artifacts : List (String × String) := []
deriving Repr, DecidableEq

/-- The coordinator's shared mutable state. -/
structure ServerState where
  pending : List TaskRec := []
  running : List (String × RunningInfo) := []
  clients : List (String × AgentClient) := []
  results : List (String × ResultRec) := []
  wsConns : List (String × Bool) := []
  wsIdle : List String := []
  freshCtr : Nat := 0
deriving Repr, DecidableEq

/-- `uuid.uuid4().hex`, modelled as a fresh counter draw. -/
def genId (s : ServerState) : String × ServerState :=
  ("uuid-" ++ toString s.freshCtr, { s with freshCtr := s.freshCtr + 1 })

/-- `x or uuid.uuid4().hex` for an optional/possibly-empty string. -/
def getOrGen (o : Option String) (s : ServerState) : String × ServerState :=
  if pyStrSome o then (o.getD "", s) else genId s

def initState : ServerState := {}

/-- `_requeue_task`: `AGENT_PENDING_TASKS.appendleft(task)`. -/
def requeue_task (task : TaskRec) (s : ServerState) : ServerState :=
  { s with pending := task :: s.pending }

/-- `_mark_client_idle`. -/
def mark_client_idle (now : Nat) (cid : String) (s : ServerState) :
    ServerState :=
  let idle1 := if (lookupA s.wsConns cid).isSome then addSet s.wsIdle cid
               else s.wsIdle
  let clients1 :=
    match lookupA s.clients cid with
    | some c => insertA s.clients cid
        { c with status := "idle", task_id := none, last_seen := now }
    | none => s.clients
  { s with wsIdle := idle1, clients := clients1 }

/-- The locked section of `_record_task_result` (store the result, drop
the running entry, return the reporting client to idle). -/
def record_result_core (now : Nat) (r : ResultRec) (s : ServerState) :
    ServerState :=
  let results1 := insertA s.results r.task_id r
  let running1 := eraseA s.running r.task_id
  match lookupA s.clients r.client_id with
  | some c =>
    let clients1 := insertA s.clients r.client_id
      { c with status := "idle", task_id := none, last_seen := now }
    let idle1 := if (lookupA s.wsConns r.client_id).isSome then
                   addSet s.wsIdle r.client_id
                 else s.wsIdle
    { s with results := results1, running := running1,
             clients := clients1, wsIdle := idle1 }
  | none => { s with results := results1, running := running1 }

/-- The predicate of `_drop_ws_connection`'s requeue scan:
`info.get("client_id") == client_id and info.get("channel") == "ws"`. -/
def ws_match (cid : String) (p : String × RunningInfo) : Bool :=
  p.2.client_id == cid && p.2.channel == some "ws"

/-- `_drop_ws_connection` up to (but not including) its final
`_dispatch_tasks` call: forget the socket, collect and remove this
client's ws-channel running entries, mark the client offline, and
requeue each collected task at the front.  Returns the collected list. -/
def drop_ws_core (now : Nat) (cid : String) (s : ServerState) :
    ServerState × List TaskRec :=
  let collected := (s.running.filter (ws_match cid)).map (fun p => p.2.task)
  let clients1 :=
    match lookupA s.clients cid with
    | some c => insertA s.clients cid
        { c with status := "offline", task_id := none, last_seen := now }
    | none => s.clients
  let s1 := { s with wsConns := eraseA s.wsConns cid,
                     wsIdle := delSet s.wsIdle cid,
                     running := s.running.filter (fun p => !(ws_match cid p)),
                     clients := clients1 }
  (collected.foldl (fun st t => { st with pending := t :: st.pending }) s1,
   collected)

/-- One assignment inside the dispatch loop: pop `task`, settle its id,
record the running entry (channel `"ws"`), mark `cid` running and drop
it from the idle set.  Returns the new state and the task as sent. -/
def assign_one (now : Nat) (cid : String) (task : TaskRec)
    (pendRest : List TaskRec) (s : ServerState) : ServerState × TaskRec :=
  let g := getOrGen task.task_id s
  let tid := g.1
  let s0 := g.2
  let task1 := { task with task_id := some tid }
  let info : RunningInfo :=
    { client_id := cid, task := task1, started_at := now,
      channel := some "ws" }
  let clients1 :=
    match lookupA s0.clients cid with
    | some c => insertA s0.clients cid
        { c with status := "running", task_id := some tid,
                 last_seen := now }
    | none => s0.clients
  ({ s0 with pending := pendRest,
             running := insertA s0.running tid info,
             clients := clients1,
             wsIdle := delSet s0.wsIdle cid },
   task1)

/-- The locked phase of `_dispatch_tasks`: walk the snapshot of idle,
connected clients; while a pending task remains, pop the task, run
`assign_one`, and continue with the rest of the snapshot. -/
def dispatch_assign (now : Nat) :
    List String → ServerState → List (String × TaskRec) →
    ServerState × List (String × TaskRec)
  | [], s, acc => (s, acc)
  | cid :: rest, s, acc =>
    match s.pending with
    | [] => (s, acc)
    | task :: pendRest =>
      match lookupA s.wsConns cid with
      | none => dispatch_assign now rest s acc
      | some _ =>
        let a := assign_one now cid task pendRest s
        dispatch_assign now rest a.1 (acc ++ [(cid, a.2)])

mutual

/-- `_dispatch_tasks`: under the lock pair idle connected clients with
pending tasks (`dispatch_assign`), then deliver each assignment over its
socket.  `fuel` bounds the recursion through `_drop_ws_connection`; each
recursive call decreases it. -/
def dispatch_tasks : Nat → Nat → ServerState → ServerState
  | 0, _, s => s
  | fuel + 1, now, s =>
    let step := dispatch_assign now
      (s.wsIdle.filter (fun c => (lookupA s.wsConns c).isSome)) s []
    deliver_all fuel now step.2 step.1

/-- The delivery loop of `_dispatch_tasks`: a vanished socket requeues
the task; a failed send requeues the task and drops the connection. -/
def deliver_all : Nat → Nat → List (String × TaskRec) → ServerState →
    ServerState
  | _, _, [], s => s
  | 0, _, _ :: _, s => s
  | fuel + 1, now, (cid, task) :: rest, s =>
    match lookupA s.wsConns cid with
    | none => deliver_all fuel now rest { s with pending := task :: s.pending }
    | some healthy =>
      if healthy then deliver_all fuel now rest s
      else
        deliver_all fuel now rest
          (drop_ws_connection fuel now cid { s with pending := task :: s.pending })

/-- `_drop_ws_connection`: the core clean-up, then a re-dispatch when
any task was requeued. -/
def drop_ws_connection : Nat → Nat → String → ServerState → ServerState
  | 0, now, cid, s => (drop_ws_core now cid s).1
  | fuel + 1, now, cid, s =>
    let step := drop_ws_core now cid s
    if step.2.isEmpty then step.1 else dispatch_tasks fuel now step.1

end

/-- `_record_task_result` (store result, release client, re-dispatch). -/
def record_task_result (fuel now : Nat) (r : ResultRec) (s : ServerState) :
    ServerState :=
  dispatch_tasks fuel now (record_result_core now r s)

/-- The body of `RegisterPayload`. -/
structure RegisterPayload where
  client_id : Option String := none
  hostname : Option String := none
  platform : Option String := none
  python_version : Option String := none
  headless : Option Bool := none
deriving Repr, DecidableEq

/-- The `client_data` dict built on registration (no `task_id` key). -/
def register_client_data (now : Nat) (cid : String) (p : RegisterPayload) :
    AgentClient :=
  { client_id := cid, hostname := p.hostname.getD "",
    platform := p.platform.getD "", python_version := p.python_version.getD "",
    headless := p.headless, status := "idle", task_id := none,
    last_seen := now }

/-- `POST /register` (state effect; returns the assigned id). -/
def register_agent (now : Nat) (p : RegisterPayload) (s : ServerState) :
    String × ServerState :=
  let step := getOrGen p.client_id s
  (step.1, { step.2 with
    clients := insertA step.2.clients step.1
      (register_client_data now step.1 p) })

/-- A successful WebSocket handshake (`register` packet accepted):
upsert the client, remember the socket (with its send-health), mark it
idle, then dispatch. -/
def agent_ws_register (fuel now : Nat) (p : RegisterPayload)
    (healthy : Bool) (s : ServerState) : String × ServerState :=
  let step := getOrGen p.client_id s
  let s1 := { step.2 with
    clients := insertA step.2.clients step.1
      (register_client_data now step.1 p),
    wsConns := insertA step.2.wsConns step.1 healthy,
    wsIdle := addSet step.2.wsIdle step.1 }
  (step.1, dispatch_tasks fuel now s1)

/-- The body of `HeartbeatPayload`. -/
structure HeartbeatPayload where
  client_id : String
  status : String
  task_id : Option String := none
deriving Repr, DecidableEq

/-- The error taxonomy surfaced over HTTP. -/
inductive ApiError where
  | badRequest : String → ApiError
  | notFound : String → ApiError
  | unauthorized : ApiError
deriving Repr, DecidableEq

/-- `POST /heartbeat`: 404 for an unknown client, else copy the
client-supplied status and task id and refresh `last_seen`. -/
def heartbeat (now : Nat) (p : HeartbeatPayload) (s : ServerState) :
    Except ApiError ServerState :=
  match lookupA s.clients p.client_id with
  | none => .error (.notFound "unknown client")
  | some c =>
    let c1 := { c with status := p.status, task_id := p.task_id,
                       last_seen := now }
    .ok { s with clients := insertA s.clients p.client_id c1 }

/-- The WebSocket `heartbeat` branch: update the record if known (the
status defaults to the current one when absent, the task id is copied
verbatim), add to the idle set on `"idle"`, then dispatch on `"idle"`. -/
def agent_ws_heartbeat (fuel now : Nat) (cid : String)
    (status : Option String) (tid : Option String) (s : ServerState) :
    ServerState :=
  let s1 :=
    match lookupA s.clients cid with
    | some c =>
      let c1 := { c with status := status.getD c.status, task_id := tid,
                         last_seen := now }
      let idle1 := if status == some "idle" then addSet s.wsIdle cid
                   else s.wsIdle
      { s with clients := insertA s.clients cid c1, wsIdle := idle1 }
    | none => s
  if status == some "idle" then dispatch_tasks fuel now s1 else s1

/-- The WebSocket `task_ack` branch: a falsy task id is ignored; an
accepted ack does nothing; a rejected ack pops the running entry,
requeues its task at the front, marks the client idle and re-dispatches. -/
def agent_ws_task_ack (fuel now : Nat) (cid : String) (tid : Option String)
    (accepted : Bool) (s : ServerState) : ServerState :=
  if !(pyStrSome tid) then s
  else if accepted then s
  else
    let t := tid.getD ""
    let info := lookupA s.running t
    let s1 := { s with running := eraseA s.running t }
    let s2 :=
      match info with
      | some i => { s1 with pending := i.task :: s1.pending }
      | none => s1
    dispatch_tasks fuel now (mark_client_idle now cid s2)

/-- The WebSocket `result` branch (the payload's `client_id` is forced
to the connection's client). -/
def agent_ws_result (fuel now : Nat) (cid : String) (r : ResultRec)
    (s : ServerState) : ServerState :=
  record_task_result fuel now { r with client_id := cid } s

/-- The body of `EnqueueTaskPayload`. -/
structure EnqueueTaskPayload where
  zip_url : Option String := none
  zip_base64 : Option String := none
  zip_filename : Option String := none
  config : List (String × String) := []
  cleanup : Bool := true
  headless : Option Bool := none
  task_id : Option String := none
deriving Repr, DecidableEq

/-- The `task_data` dict that `enqueue_task` appends. -/
def enqueue_task_record (p : EnqueueTaskPayload) (tid : String) : TaskRec :=
  { task_id := some tid, zip_url := p.zip_url, zip_base64 := p.zip_base64,
    zip_filename := p.zip_filename, config := p.config,
    cleanup := p.cleanup, headless := p.headless }

/-- `POST /tasks/enqueue`: 400 when both archive references are falsy,
else assign an id if absent, append at the tail, dispatch, and return
the id with the pending count taken right after the append. -/
def enqueue_task (fuel now : Nat) (p : EnqueueTaskPayload)
    (s : ServerState) : Except ApiError ((String × Nat) × ServerState) :=
  if !(pyStrSome p.zip_url) && !(pyStrSome p.zip_base64) then
    .error (.badRequest "zip_url or zip_base64 required")
  else
    let step := getOrGen p.task_id s
    let s1 := { step.2 with
      pending := step.2.pending ++ [enqueue_task_record p step.1] }
    .ok ((step.1, s1.pending.length), dispatch_tasks fuel now s1)

/-- One successful polling tick of `_pop_agent_task`: pop the queue
head, assign an id if absent, and record a running entry with no
`channel` key.  The client registry is not consulted. -/
def pop_agent_task_step (now : Nat) (cid : String) (s : ServerState) :
    Option TaskRec × ServerState :=
  match s.pending with
  | [] => (none, s)
  | task :: rest =>
    let step := getOrGen task.task_id s
    let task1 := { task with task_id := some step.1 }
    let info : RunningInfo :=
      { client_id := cid, task := task1, started_at := now, channel := none }
    (some task1,
     { step.2 with pending := rest,
                   running := insertA step.2.running step.1 info })

/-- `_require_agent_auth`: no check when no token is configured, else
the `Authorization` header must equal `Bearer ` + token. -/
def require_agent_auth (token : String) (authHeader : Option String) :
    Except ApiError Unit :=
  if token == "" then .ok ()
  else if authHeader == some ("Bearer " ++ token) then .ok ()
  else .error .unauthorized

/-- The check order of `GET /task`: unknown-client (404, under the
lock) runs before `_require_agent_auth` (401). -/
def fetch_task_checks (token : String) (cid : String)
    (authHeader : Option String) (s : ServerState) : Except ApiError Unit :=
  match lookupA s.clients cid with
  | none => .error (.notFound "unknown client")
  | some _ => require_agent_auth token authHeader

/-- The wait loop of `_pop_agent_task` as a timing process over discrete
ticks (one `asyncio.sleep(1)` per tick): `avail n` says whether the
queue is non-empty at tick `n`; the result is the value and the tick at
which the handler returns.  `deadline` is `start + max(timeout, 0)`. -/
def pop_loop (avail : Nat → Bool) (timeout : Int) (deadline : Nat)
    (now : Nat) : Option Nat × Nat :=
  if avail now then (some now, now)
  else if timeout ≤ 0 ∨ deadline ≤ now then (none, now)
  else pop_loop avail timeout deadline (now + 1)
termination_by deadline - now
decreasing_by
  rename_i h2
  rw [not_or] at h2
  omega

/-- `_pop_agent_task`'s timing behaviour from tick `start` with wait
budget `timeout`. -/
def pop_agent_task_wait (avail : Nat → Bool) (timeout : Int)
    (start : Nat) : Option Nat × Nat :=
  pop_loop avail timeout (start + (max timeout 0).toNat) start

/-- The coordinator's externally triggered state transitions.  `fuel`
bounds the dispatch recursion of the event's handler, `now` is the
wall-clock tick stamped into `last_seen`/`started_at`. -/
inductive AgentEvent where
  | httpRegister (p : RegisterPayload) (now : Nat)
  | wsConnect (p : RegisterPayload) (healthy : Bool) (fuel now : Nat)
  | httpHeartbeat (p : HeartbeatPayload) (now : Nat)
  | wsHeartbeat (cid : String) (status : Option String) (tid : Option String)
      (fuel now : Nat)
  | wsTaskAck (cid : String) (tid : Option String) (accepted : Bool)
      (fuel now : Nat)
  | wsResult (cid : String) (r : ResultRec) (fuel now : Nat)
  | httpResult (r : ResultRec) (fuel now : Nat)
  | wsDrop (cid : String) (fuel now : Nat)
  | httpEnqueue (p : EnqueueTaskPayload) (fuel now : Nat)
  | pollFetch (cid : String) (now : Nat)
deriving Repr

/-- The state effect of one complete handler execution.  Handlers that
reject the request (404 unknown client, 400 bad payload) leave the
state unchanged. -/
def apply_event : AgentEvent → ServerState → ServerState
  | .httpRegister p now, s => (register_agent now p s).2
  | .wsConnect p h fuel now, s => (agent_ws_register fuel now p h s).2
  | .httpHeartbeat p now, s =>
    match heartbeat now p s with
    | .ok s1 => s1
    | .error _ => s
  | .wsHeartbeat cid st tid fuel now, s => agent_ws_heartbeat fuel now cid st tid s
  | .wsTaskAck cid tid acc fuel now, s => agent_ws_task_ack fuel now cid tid acc s
  | .wsResult cid r fuel now, s => agent_ws_result fuel now cid r s
  | .httpResult r fuel now, s => record_task_result fuel now r s
  | .wsDrop cid fuel now, s => drop_ws_connection fuel now cid s
  | .httpEnqueue p fuel now, s =>
    match enqueue_task fuel now p s with
    | .ok (_, s1) => s1
    | .error _ => s
  | .pollFetch cid now, s =>
    match lookupA s.clients cid with
    | none => s
    | some _ => (pop_agent_task_step now cid s).2

/-- States reachable from the empty coordinator under any event run. -/
inductive Reachable : ServerState → Prop where
  | init : Reachable initState
  | step (e : AgentEvent) {s : ServerState} :
      Reachable s → Reachable (apply_event e s)

/-- A heartbeat body consistent with the registry invariant: status
`running` carries a task id, status `idle` or `offline` carries none. -/
def hb_ok (status : String) (tid : Option String) : Prop :=
  (status = "running" → tid ≠ none) ∧
  ((status = "idle" ∨ status = "offline") → tid = none)

instance (status : String) (tid : Option String) :
    Decidable (hb_ok status tid) := by
  unfold hb_ok; infer_instance

/-- Events whose heartbeat payloads are well-formed (all other events
are unconstrained). -/
def event_hb_ok : AgentEvent → Prop
  | .httpHeartbeat p _ => hb_ok p.status p.task_id
  | .wsHeartbeat _ st tid _ _ => ∃ stv, st = some stv ∧ hb_ok stv tid
  | _ => True

/-- Reachability when every heartbeat an agent sends is well-formed. -/
inductive ReachableWF : ServerState → Prop where
  | init : ReachableWF initState
  | step (e : AgentEvent) {s : ServerState} :
      event_hb_ok e → ReachableWF s → ReachableWF (apply_event e s)

/-- The task identifiers of the pending-plus-running population. -/
def population_ids (s : ServerState) : List String :=
  s.pending.filterMap (fun t => t.task_id) ++ s.running.map Prod.fst

/-- One client record's status/task-id discipline (spec 3,
`AgentClient` invariant). -/
def client_ok (c : AgentClient) : Prop :=
  (c.status = "running" → c.task_id ≠ none) ∧
  ((c.status = "idle" ∨ c.status = "offline") → c.task_id = none)

instance (c : AgentClient) : Decidable (client_ok c) := by
  unfold client_ok; infer_instance

/-- The discipline over a whole client table. -/
def clientsOkL (l : List (String × AgentClient)) : Prop :=
  ∀ p ∈ l, client_ok p.2

instance (l : List (String × AgentClient)) : Decidable (clientsOkL l) := by
  unfold clientsOkL; infer_instance

/-- Duplicate-freedom of an association list's key column. -/
def keysNodup {α : Type} (l : List (String × α)) : Prop :=
  (l.map Prod.fst).Nodup

theorem lookupA_isSome_iff_mem {α : Type} (l : List (String × α))
    (k : String) : (lookupA l k).isSome ↔ k ∈ l.map Prod.fst := by
  induction l with
  | nil => simp [lookupA]
  | cons p l ih =>
    by_cases hp : p.1 = k
    · simp [lookupA, hp]
    · have h2 : ¬ k = p.1 := fun hh => hp hh.symm
      simp [lookupA, hp, ih, h2]

theorem lookupA_map_update {α : Type} (l : List (String × α)) (k : String)
    (v : α) (h : (lookupA l k).isSome) :
    lookupA (l.map (updEntry k v)) k = some v := by
  induction l with
  | nil => simp [lookupA] at h
  | cons p l ih =>
    by_cases hp : p.1 = k
    · simp [lookupA, updEntry, hp]
    · simp only [lookupA, hp, beq_iff_eq, if_false, if_neg hp] at h
      simp only [List.map_cons, lookupA, updEntry, beq_iff_eq, hp,
        if_false, if_neg hp]
      exact ih h

theorem lookupA_append_self {α : Type} (l : List (String × α)) (k : String)
    (v : α) (h : lookupA l k = none) :
    lookupA (l ++ [(k, v)]) k = some v := by
  induction l with
  | nil => simp [lookupA]
  | cons p l ih =>
    by_cases hp : p.1 = k
    · simp [lookupA, hp] at h
    · simp only [lookupA, beq_iff_eq, if_neg hp] at h
      simp only [List.cons_append, lookupA, beq_iff_eq, if_neg hp]
      exact ih h

theorem lookupA_insertA_self {α : Type} (l : List (String × α))
    (k : String) (v : α) : lookupA (insertA l k v) k = some v := by
  rw [insertA]
  split
  · next h => exact lookupA_map_update l k v h
  · next h =>
    apply lookupA_append_self
    cases hL : lookupA l k with
    | none => rfl
    | some w => rw [hL] at h; simp at h

theorem lookupA_map_update_ne {α : Type} (l : List (String × α))
    (k k' : String) (v : α) (h : k' ≠ k) :
    lookupA (l.map (updEntry k v)) k' = lookupA l k' := by
  have hkk' : ¬ k = k' := fun hh => h hh.symm
  induction l with
  | nil => simp
  | cons p l ih =>
    by_cases hp : p.1 = k
    · have hp' : ¬ p.1 = k' := by rw [hp]; exact hkk'
      simp [lookupA, updEntry, hp, hkk', hp', ih]
    · simp [lookupA, updEntry, hp, ih]

theorem lookupA_append_ne {α : Type} (l : List (String × α))
    (k k' : String) (v : α) (h : k' ≠ k) :
    lookupA (l ++ [(k, v)]) k' = lookupA l k' := by
  have hkk' : ¬ k = k' := fun hh => h hh.symm
  induction l with
  | nil => simp [lookupA, hkk']
  | cons p l ih =>
    by_cases hp : p.1 = k'
    · simp [lookupA, hp]
    · simp [lookupA, hp, ih]

theorem lookupA_insertA_ne {α : Type} (l : List (String × α))
    (k k' : String) (v : α) (h : k' ≠ k) :
    lookupA (insertA l k v) k' = lookupA l k' := by
  rw [insertA]
  split
  · next hc => exact lookupA_map_update_ne l k k' v h
  · next hc => exact lookupA_append_ne l k k' v h

theorem lookupA_insertA_isSome {α : Type} (l : List (String × α))
    (k k' : String) (v : α) (h : (lookupA l k').isSome) :
    (lookupA (insertA l k v) k').isSome := by
  by_cases hk : k' = k
  · subst hk; simp [lookupA_insertA_self]
  · rw [lookupA_insertA_ne l k k' v hk]; exact h

theorem lookupA_eraseA_self {α : Type} (l : List (String × α))
    (k : String) : lookupA (eraseA l k) k = none := by
  induction l with
  | nil => simp [eraseA, lookupA]
  | cons p l ih =>
    by_cases hp : p.1 = k
    · simpa [eraseA, List.filter_cons, notKeyB, hp] using ih
    · simpa [eraseA, lookupA, List.filter_cons, notKeyB, hp] using ih

theorem eraseA_eraseA {α : Type} (l : List (String × α)) (k : String) :
    eraseA (eraseA l k) k = eraseA l k := by
  simp [eraseA, List.filter_filter, Bool.and_self]

theorem keys_map_update {α : Type} (l : List (String × α)) (k : String)
    (v : α) :
    (l.map (updEntry k v)).map Prod.fst = l.map Prod.fst := by
  induction l with
  | nil => simp
  | cons p l ih =>
    by_cases hp : p.1 = k
    · simp [updEntry, hp, ih]
    · simp [updEntry, hp, ih]

theorem keysNodup_insertA {α : Type} (l : List (String × α)) (k : String)
    (v : α) (h : keysNodup l) : keysNodup (insertA l k v) := by
  rw [insertA]
  split
  · next hc =>
    unfold keysNodup
    rw [keys_map_update]
    exact h
  · next hc =>
    have hk : k ∉ l.map Prod.fst := by
      rw [← lookupA_isSome_iff_mem]
      simpa using hc
    unfold keysNodup
    rw [List.map_append]
    refine List.Nodup.append h (List.nodup_singleton k) ?_
    intro a ha hb
    simp only [List.map_cons, List.map_nil, List.mem_singleton] at hb
    exact hk (hb ▸ ha)

theorem keysNodup_filter {α : Type} (l : List (String × α))
    (q : String × α → Bool) (h : keysNodup l) : keysNodup (l.filter q) :=
  List.Nodup.sublist (List.Sublist.map Prod.fst (List.filter_sublist l)) h

theorem count_keys_insertA {α : Type} (l : List (String × α)) (k : String)
    (v : α) (h : keysNodup l) :
    ((insertA l k v).map Prod.fst).count k = 1 := by
  rw [insertA]
  split
  · next hc =>
    rw [keys_map_update]
    exact List.count_eq_one_of_mem h ((lookupA_isSome_iff_mem l k).mp hc)
  · next hc =>
    have hk : k ∉ l.map Prod.fst := by
      rw [← lookupA_isSome_iff_mem]
      simpa using hc
    rw [List.map_append]
    simp [List.count_append, List.count_eq_zero.mpr hk]

theorem clientsOkL_insertA (l : List (String × AgentClient)) (k : String)
    (v : AgentClient) (h : clientsOkL l) (hv : client_ok v) :
    clientsOkL (insertA l k v) := by
  unfold clientsOkL
  rw [insertA]
  split
  · next hc =>
    intro p hp
    rw [List.mem_map] at hp
    obtain ⟨q, hq, rfl⟩ := hp
    by_cases hqk : q.1 = k
    · simpa [updEntry, hqk] using hv
    · simpa [updEntry, hqk] using h q hq
  · next hc =>
    intro p hp
    rcases List.mem_append.mp hp with hp | hp
    · exact h p hp
    · simp only [List.mem_singleton] at hp
      subst hp
      exact hv

theorem getOrGen_pending (o : Option String) (s : ServerState) :
    (getOrGen o s).2.pending = s.pending := by
  unfold getOrGen genId; split <;> rfl

theorem getOrGen_running (o : Option String) (s : ServerState) :
    (getOrGen o s).2.running = s.running := by
  unfold getOrGen genId; split <;> rfl

theorem getOrGen_clients (o : Option String) (s : ServerState) :
    (getOrGen o s).2.clients = s.clients := by
  unfold getOrGen genId; split <;> rfl

theorem getOrGen_results (o : Option String) (s : ServerState) :
    (getOrGen o s).2.results = s.results := by
  unfold getOrGen genId; split <;> rfl

theorem getOrGen_wsConns (o : Option String) (s : ServerState) :
    (getOrGen o s).2.wsConns = s.wsConns := by
  unfold getOrGen genId; split <;> rfl

theorem getOrGen_wsIdle (o : Option String) (s : ServerState) :
    (getOrGen o s).2.wsIdle = s.wsIdle := by
  unfold getOrGen genId; split <;> rfl

theorem getOrGen_of_some (t : String) (s : ServerState) (h : ¬ t = "") :
    getOrGen (some t) s = (t, s) := by
  unfold getOrGen
  rw [if_pos]
  · rfl
  · simp [pyStrSome, h]

theorem foldl_requeue (l : List TaskRec) (st : ServerState) :
    l.foldl (fun st t => { st with pending := t :: st.pending }) st =
      { st with pending := l.reverse ++ st.pending } := by
  induction l generalizing st with
  | nil => rfl
  | cons t l ih =>
    rw [List.foldl_cons, ih]
    simp [ServerState.mk.injEq]

theorem drop_ws_core_eq (now : Nat) (cid : String) (s : ServerState) :
    drop_ws_core now cid s =
      ({ s with
          pending := ((s.running.filter (ws_match cid)).map
            (fun p => p.2.task)).reverse ++ s.pending,
          running := s.running.filter (fun p => !(ws_match cid p)),
          clients :=
            match lookupA s.clients cid with
            | some c => insertA s.clients cid
                { c with status := "offline", task_id := none,
                         last_seen := now }
            | none => s.clients,
          wsConns := eraseA s.wsConns cid,
          wsIdle := delSet s.wsIdle cid },
       (s.running.filter (ws_match cid)).map (fun p => p.2.task)) := by
  simp only [drop_ws_core, foldl_requeue]

theorem client_ok_none (c : AgentClient) (st : String) (n : Nat)
    (hst : st ≠ "running") :
    client_ok { c with status := st, task_id := none, last_seen := n } := by
  constructor
  · intro h; exact absurd h hst
  · intro _; rfl

theorem client_ok_run (c : AgentClient) (tid : String) (n : Nat) :
    client_ok { c with status := "running", task_id := some tid,
                       last_seen := n } := by
  constructor
  · intro _ h; simp at h
  · intro h
    rcases h with h | h
    · exact absurd (show "running" = "idle" from h) (by decide)
    · exact absurd (show "running" = "offline" from h) (by decide)

theorem assign_one_running_nodup (now : Nat) (cid : String) (task : TaskRec)
    (pendRest : List TaskRec) (s : ServerState) (h : keysNodup s.running) :
    keysNodup (assign_one now cid task pendRest s).1.running := by
  show keysNodup (insertA (getOrGen task.task_id s).2.running
    (getOrGen task.task_id s).1
    ⟨cid, { task with task_id := some (getOrGen task.task_id s).1 }, now,
     some "ws"⟩)
  rw [getOrGen_running]
  exact keysNodup_insertA _ _ _ h

theorem assign_one_clients_ok (now : Nat) (cid : String) (task : TaskRec)
    (pendRest : List TaskRec) (s : ServerState)
    (h : clientsOkL s.clients) :
    clientsOkL (assign_one now cid task pendRest s).1.clients := by
  show clientsOkL
    (match lookupA (getOrGen task.task_id s).2.clients cid with
     | some c => insertA (getOrGen task.task_id s).2.clients cid
         { c with status := "running",
                  task_id := some (getOrGen task.task_id s).1,
                  last_seen := now }
     | none => (getOrGen task.task_id s).2.clients)
  rw [getOrGen_clients]
  cases hL : lookupA s.clients cid with
  | none => exact h
  | some c => exact clientsOkL_insertA _ _ _ h (client_ok_run _ _ _)

theorem dispatch_assign_running_nodup (now : Nat) :
    ∀ (l : List String) (s : ServerState) (acc : List (String × TaskRec)),
      keysNodup s.running →
      keysNodup (dispatch_assign now l s acc).1.running := by
  intro l
  induction l with
  | nil => intro s acc h; exact h
  | cons cid rest ih =>
    intro s acc h
    simp only [dispatch_assign]
    cases hp : s.pending with
    | nil => exact h
    | cons task pendRest =>
      cases hc : lookupA s.wsConns cid with
      | none => exact ih s acc h
      | some b =>
        exact ih _ _ (assign_one_running_nodup now cid task pendRest s h)

theorem dispatch_assign_clients_ok (now : Nat) :
    ∀ (l : List String) (s : ServerState) (acc : List (String × TaskRec)),
      clientsOkL s.clients →
      clientsOkL (dispatch_assign now l s acc).1.clients := by
  intro l
  induction l with
  | nil => intro s acc h; exact h
  | cons cid rest ih =>
    intro s acc h
    simp only [dispatch_assign]
    cases hp : s.pending with
    | nil => exact h
    | cons task pendRest =>
      cases hc : lookupA s.wsConns cid with
      | none => exact ih s acc h
      | some b =>
        exact ih _ _ (assign_one_clients_ok now cid task pendRest s h)

theorem drop_ws_core_running_nodup (now : Nat) (cid : String)
    (s : ServerState) (h : keysNodup s.running) :
    keysNodup (drop_ws_core now cid s).1.running := by
  rw [drop_ws_core_eq]
  exact keysNodup_filter _ _ h

theorem drop_clients_ok_lit (now : Nat) (cid : String) (s : ServerState)
    (h : clientsOkL s.clients) :
    clientsOkL
      (match lookupA s.clients cid with
       | some c => insertA s.clients cid
           { c with status := "offline", task_id := none, last_seen := now }
       | none => s.clients) := by
  cases hL : lookupA s.clients cid with
  | none => exact h
  | some c =>
    exact clientsOkL_insertA _ _ _ h (client_ok_none _ _ _ (by decide))

theorem drop_ws_core_clients_ok (now : Nat) (cid : String)
    (s : ServerState) (h : clientsOkL s.clients) :
    clientsOkL (drop_ws_core now cid s).1.clients := by
  rw [drop_ws_core_eq]
  exact drop_clients_ok_lit now cid s h

theorem dispatch_nodup_all : ∀ fuel : Nat,
    (∀ (now : Nat) (s : ServerState), keysNodup s.running →
      keysNodup (dispatch_tasks fuel now s).running) ∧
    (∀ (now : Nat) (asg : List (String × TaskRec)) (s : ServerState),
      keysNodup s.running → keysNodup (deliver_all fuel now asg s).running) ∧
    (∀ (now : Nat) (cid : String) (s : ServerState), keysNodup s.running →
      keysNodup (drop_ws_connection fuel now cid s).running) := by
  intro fuel
  induction fuel with
  | zero =>
    refine ⟨?_, ?_, ?_⟩
    · intro now s h
      simp only [dispatch_tasks]
      exact h
    · intro now asg s h
      cases asg with
      | nil => simp only [deliver_all]; exact h
      | cons hd rest =>
        obtain ⟨cid, task⟩ := hd
        simp only [deliver_all]
        exact h
    · intro now cid s h
      simp only [drop_ws_connection]
      exact drop_ws_core_running_nodup now cid s h
  | succ fuel ih =>
    obtain ⟨ihd, ihv, ihw⟩ := ih
    refine ⟨?_, ?_, ?_⟩
    · intro now s h
      simp only [dispatch_tasks]
      exact ihv now _ _ (dispatch_assign_running_nodup now _ s [] h)
    · intro now asg s h
      cases asg with
      | nil => simp only [deliver_all]; exact h
      | cons hd rest =>
        obtain ⟨cid, task⟩ := hd
        simp only [deliver_all]
        cases hc : lookupA s.wsConns cid with
        | none => simp only [hc]; exact ihv now rest _ h
        | some healthy =>
          simp only [hc]
          cases healthy with
          | true => rw [if_pos rfl]; exact ihv now rest s h
          | false =>
            rw [if_neg (by simp)]
            exact ihv now rest _ (ihw now cid _ h)
    · intro now cid s h
      simp only [drop_ws_connection]
      rw [drop_ws_core_eq]
      by_cases he : ((s.running.filter (ws_match cid)).map
        (fun p => p.2.task)).isEmpty = true
      · rw [if_pos he]
        exact keysNodup_filter _ _ h
      · rw [if_neg he]
        exact ihd now _ (keysNodup_filter _ _ h)

theorem dispatch_clients_ok_all : ∀ fuel : Nat,
    (∀ (now : Nat) (s : ServerState), clientsOkL s.clients →
      clientsOkL (dispatch_tasks fuel now s).clients) ∧
    (∀ (now : Nat) (asg : List (String × TaskRec)) (s : ServerState),
      clientsOkL s.clients → clientsOkL (deliver_all fuel now asg s).clients) ∧
    (∀ (now : Nat) (cid : String) (s : ServerState), clientsOkL s.clients →
      clientsOkL (drop_ws_connection fuel now cid s).clients) := by
  intro fuel
  induction fuel with
  | zero =>
    refine ⟨?_, ?_, ?_⟩
    · intro now s h
      simp only [dispatch_tasks]
      exact h
    · intro now asg s h
      cases asg with
      | nil => simp only [deliver_all]; exact h
      | cons hd rest =>
        obtain ⟨cid, task⟩ := hd
        simp only [deliver_all]
        exact h
    · intro now cid s h
      simp only [drop_ws_connection]
      exact drop_ws_core_clients_ok now cid s h
  | succ fuel ih =>
    obtain ⟨ihd, ihv, ihw⟩ := ih
    refine ⟨?_, ?_, ?_⟩
    · intro now s h
      simp only [dispatch_tasks]
      exact ihv now _ _ (dispatch_assign_clients_ok now _ s [] h)
    · intro now asg s h
      cases asg with
      | nil => simp only [deliver_all]; exact h
      | cons hd rest =>
        obtain ⟨cid, task⟩ := hd
        simp only [deliver_all]
        cases hc : lookupA s.wsConns cid with
        | none => simp only [hc]; exact ihv now rest _ h
        | some healthy =>
          simp only [hc]
          cases healthy with
          | true => rw [if_pos rfl]; exact ihv now rest s h
          | false =>
            rw [if_neg (by simp)]
            exact ihv now rest _ (ihw now cid _ h)
    · intro now cid s h
      simp only [drop_ws_connection]
      rw [drop_ws_core_eq]
      by_cases he : ((s.running.filter (ws_match cid)).map
        (fun p => p.2.task)).isEmpty = true
      · rw [if_pos he]
        exact drop_clients_ok_lit now cid s h
      · rw [if_neg he]
        exact ihd now _ (drop_clients_ok_lit now cid s h)

theorem client_ok_set (c : AgentClient) (st : String) (tid : Option String)
    (n : Nat) (h : hb_ok st tid) :
    client_ok { c with status := st, task_id := tid, last_seen := n } :=
  ⟨h.1, h.2⟩

theorem client_ok_register (now : Nat) (cid : String) (p : RegisterPayload) :
    client_ok (register_client_data now cid p) := by
  constructor
  · intro h
    exact absurd (show "idle" = "running" from h) (by decide)
  · intro _
    rfl

theorem mark_client_idle_clients_ok (now : Nat) (cid : String)
    (s : ServerState) (h : clientsOkL s.clients) :
    clientsOkL (mark_client_idle now cid s).clients := by
  unfold mark_client_idle
  cases hL : lookupA s.clients cid with
  | none => simpa only [hL] using h
  | some c =>
    simp only [hL]
    exact clientsOkL_insertA _ _ _ h (client_ok_none _ _ _ (by decide))

theorem record_result_core_running_nodup (now : Nat) (r : ResultRec)
    (s : ServerState) (h : keysNodup s.running) :
    keysNodup (record_result_core now r s).running := by
  unfold record_result_core
  cases hL : lookupA s.clients r.client_id with
  | none => simp only [hL]; exact keysNodup_filter _ _ h
  | some c => simp only [hL]; exact keysNodup_filter _ _ h

theorem record_result_core_clients_ok (now : Nat) (r : ResultRec)
    (s : ServerState) (h : clientsOkL s.clients) :
    clientsOkL (record_result_core now r s).clients := by
  unfold record_result_core
  cases hL : lookupA s.clients r.client_id with
  | none => simpa only [hL] using h
  | some c =>
    simp only [hL]
    exact clientsOkL_insertA _ _ _ h (client_ok_none _ _ _ (by decide))

theorem reachable_running_nodup (s : ServerState) (h : Reachable s) :
    keysNodup s.running := by
  induction h with
  | init => simp [initState, keysNodup]
  | step e hR ih =>
    rename_i s0
    cases e with
    | httpRegister p now =>
      show keysNodup (register_agent now p s0).2.running
      have hrw : (register_agent now p s0).2.running = s0.running :=
        getOrGen_running p.client_id s0
      rw [hrw]
      exact ih
    | wsConnect p hl fuel now =>
      refine (dispatch_nodup_all fuel).1 now _ ?_
      show keysNodup (getOrGen p.client_id s0).2.running
      rw [getOrGen_running]
      exact ih
    | httpHeartbeat p now =>
      show keysNodup
        (match heartbeat now p s0 with
         | .ok s1 => s1
         | .error _ => s0).running
      cases hL : lookupA s0.clients p.client_id with
      | none =>
        have hh : heartbeat now p s0 = .error (.notFound "unknown client") := by
          unfold heartbeat
          rw [hL]
        rw [hh]
        exact ih
      | some c =>
        have hh : heartbeat now p s0 = .ok { s0 with
            clients := insertA s0.clients p.client_id
              { c with status := p.status, task_id := p.task_id,
                       last_seen := now } } := by
          unfold heartbeat
          rw [hL]
        rw [hh]
        exact ih
    | wsHeartbeat cid st tid fuel now =>
      cases hL : lookupA s0.clients cid with
      | none =>
        simp only [apply_event, agent_ws_heartbeat, hL]
        split
        · exact (dispatch_nodup_all fuel).1 now _ ih
        · exact ih
      | some c =>
        simp only [apply_event, agent_ws_heartbeat, hL]
        split
        · exact (dispatch_nodup_all fuel).1 now _ ih
        · exact ih
    | wsTaskAck cid tid acc fuel now =>
      show keysNodup (agent_ws_task_ack fuel now cid tid acc s0).running
      unfold agent_ws_task_ack
      split
      · exact ih
      · split
        · exact ih
        · refine (dispatch_nodup_all fuel).1 now _ ?_
          cases hi : lookupA s0.running (tid.getD "") with
          | none => exact keysNodup_filter _ _ ih
          | some i => exact keysNodup_filter _ _ ih
    | wsResult cid r fuel now =>
      refine (dispatch_nodup_all fuel).1 now _ ?_
      exact record_result_core_running_nodup now _ s0 ih
    | httpResult r fuel now =>
      refine (dispatch_nodup_all fuel).1 now _ ?_
      exact record_result_core_running_nodup now r s0 ih
    | wsDrop cid fuel now =>
      exact (dispatch_nodup_all fuel).2.2 now cid s0 ih
    | httpEnqueue p fuel now =>
      by_cases hc : (!(pyStrSome p.zip_url) && !(pyStrSome p.zip_base64)) = true
      · simp [apply_event, enqueue_task, hc]
        exact ih
      · simp [apply_event, enqueue_task, hc]
        refine (dispatch_nodup_all fuel).1 now _ ?_
        show keysNodup (getOrGen p.task_id s0).2.running
        rw [getOrGen_running]
        exact ih
    | pollFetch cid now =>
      cases hL : lookupA s0.clients cid with
      | none =>
        show keysNodup
          (match lookupA s0.clients cid with
           | none => s0
           | some _ => (pop_agent_task_step now cid s0).2).running
        rw [hL]
        exact ih
      | some c =>
        show keysNodup
          (match lookupA s0.clients cid with
           | none => s0
           | some _ => (pop_agent_task_step now cid s0).2).running
        rw [hL]
        show keysNodup (pop_agent_task_step now cid s0).2.running
        unfold pop_agent_task_step
        cases hp : s0.pending with
        | nil => exact ih
        | cons task rest =>
          show keysNodup (insertA (getOrGen task.task_id s0).2.running
            (getOrGen task.task_id s0).1
            ⟨cid, { task with task_id := some (getOrGen task.task_id s0).1 },
             now, none⟩)
          rw [getOrGen_running]
          exact keysNodup_insertA _ _ _ ih

theorem reachableWF_clients_ok (s : ServerState) (h : ReachableWF s) :
    clientsOkL s.clients := by
  induction h with
  | init => intro p hp; simp [initState] at hp
  | step e hwf hR ih =>
    rename_i s0
    cases e with
    | httpRegister p now =>
      show clientsOkL (insertA (getOrGen p.client_id s0).2.clients
        (getOrGen p.client_id s0).1
        (register_client_data now (getOrGen p.client_id s0).1 p))
      rw [getOrGen_clients]
      exact clientsOkL_insertA _ _ _ ih (client_ok_register _ _ _)
    | wsConnect p hl fuel now =>
      refine (dispatch_clients_ok_all fuel).1 now _ ?_
      show clientsOkL (insertA (getOrGen p.client_id s0).2.clients
        (getOrGen p.client_id s0).1
        (register_client_data now (getOrGen p.client_id s0).1 p))
      rw [getOrGen_clients]
      exact clientsOkL_insertA _ _ _ ih (client_ok_register _ _ _)
    | httpHeartbeat p now =>
      have hok : hb_ok p.status p.task_id := hwf
      show clientsOkL
        (match heartbeat now p s0 with
         | .ok s1 => s1
         | .error _ => s0).clients
      cases hL : lookupA s0.clients p.client_id with
      | none =>
        have hh : heartbeat now p s0 = .error (.notFound "unknown client") := by
          unfold heartbeat
          rw [hL]
        rw [hh]
        exact ih
      | some c =>
        have hh : heartbeat now p s0 = .ok { s0 with
            clients := insertA s0.clients p.client_id
              { c with status := p.status, task_id := p.task_id,
                       last_seen := now } } := by
          unfold heartbeat
          rw [hL]
        rw [hh]
        exact clientsOkL_insertA _ _ _ ih
          (client_ok_set c p.status p.task_id now hok)
    | wsHeartbeat cid st tid fuel now =>
      obtain ⟨stv, rfl, hok⟩ := hwf
      cases hL : lookupA s0.clients cid with
      | none =>
        simp only [apply_event, agent_ws_heartbeat, hL]
        split
        · exact (dispatch_clients_ok_all fuel).1 now _ ih
        · exact ih
      | some c =>
        simp only [apply_event, agent_ws_heartbeat, hL]
        split
        · refine (dispatch_clients_ok_all fuel).1 now _ ?_
          exact clientsOkL_insertA _ _ _ ih (client_ok_set c stv tid now hok)
        · exact clientsOkL_insertA _ _ _ ih (client_ok_set c stv tid now hok)
    | wsTaskAck cid tid acc fuel now =>
      show clientsOkL (agent_ws_task_ack fuel now cid tid acc s0).clients
      unfold agent_ws_task_ack
      split
      · exact ih
      · split
        · exact ih
        · refine (dispatch_clients_ok_all fuel).1 now _ ?_
          refine mark_client_idle_clients_ok now cid _ ?_
          cases hi : lookupA s0.running (tid.getD "") with
          | none => exact ih
          | some i => exact ih
    | wsResult cid r fuel now =>
      refine (dispatch_clients_ok_all fuel).1 now _ ?_
      exact record_result_core_clients_ok now _ s0 ih
    | httpResult r fuel now =>
      refine (dispatch_clients_ok_all fuel).1 now _ ?_
      exact record_result_core_clients_ok now r s0 ih
    | wsDrop cid fuel now =>
      exact (dispatch_clients_ok_all fuel).2.2 now cid s0 ih
    | httpEnqueue p fuel now =>
      by_cases hc : (!(pyStrSome p.zip_url) && !(pyStrSome p.zip_base64)) = true
      · simp [apply_event, enqueue_task, hc]
        exact ih
      · simp [apply_event, enqueue_task, hc]
        refine (dispatch_clients_ok_all fuel).1 now _ ?_
        show clientsOkL (getOrGen p.task_id s0).2.clients
        rw [getOrGen_clients]
        exact ih
    | pollFetch cid now =>
      cases hL : lookupA s0.clients cid with
      | none =>
        show clientsOkL
          (match lookupA s0.clients cid with
           | none => s0
           | some _ => (pop_agent_task_step now cid s0).2).clients
        rw [hL]
        exact ih
      | some c =>
        show clientsOkL
          (match lookupA s0.clients cid with
           | none => s0
           | some _ => (pop_agent_task_step now cid s0).2).clients
        rw [hL]
        show clientsOkL (pop_agent_task_step now cid s0).2.clients
        unfold pop_agent_task_step
        cases hp : s0.pending with
        | nil => exact ih
        | cons task rest =>
          show clientsOkL (getOrGen task.task_id s0).2.clients
          rw [getOrGen_clients]
          exact ih

theorem dispatch_assign_pending_nil (now : Nat) (l : List String)
    (s : ServerState) (acc : List (String × TaskRec))
    (h : s.pending = []) : dispatch_assign now l s acc = (s, acc) := by
  cases l with
  | nil => simp only [dispatch_assign]
  | cons cid rest => simp only [dispatch_assign, h]

theorem dispatch_tasks_pending_nil (fuel now : Nat) (s : ServerState)
    (h : s.pending = []) : dispatch_tasks fuel now s = s := by
  cases fuel with
  | zero => simp only [dispatch_tasks]
  | succ f =>
    simp only [dispatch_tasks]
    rw [dispatch_assign_pending_nil now _ s [] h]
    simp only [deliver_all]

theorem dispatch_tasks_no_idle (fuel now : Nat) (s : ServerState)
    (h : s.wsIdle = []) : dispatch_tasks fuel now s = s := by
  cases fuel with
  | zero => simp only [dispatch_tasks]
  | succ f =>
    simp only [dispatch_tasks, h, List.filter_nil, dispatch_assign,
      deliver_all]

theorem dispatch_tasks_no_conns (fuel now : Nat) (s : ServerState)
    (h : s.wsConns = []) : dispatch_tasks fuel now s = s := by
  cases fuel with
  | zero => simp only [dispatch_tasks]
  | succ f =>
    simp only [dispatch_tasks]
    have hf : s.wsIdle.filter (fun c => (lookupA s.wsConns c).isSome) = [] := by
      rw [List.filter_eq_nil_iff]
      intro c _
      rw [h]
      simp [lookupA]
    rw [hf]
    simp only [dispatch_assign, deliver_all]

/-- C10: on `GET /task` the unknown-client check precedes the bearer-token
check: an unregistered `client_id` yields 404 regardless of token
configuration and header, while a registered client with a configured
token and a missing/incorrect header yields 401. -/
theorem fetch_task_unknown_before_auth :
    (∀ (token : String) (s : ServerState) (cid : String)
       (hdr : Option String), lookupA s.clients cid = none →
       fetch_task_checks token cid hdr s =
         .error (.notFound "unknown client"))
    ∧ (∀ (token : String) (s : ServerState) (cid : String)
         (hdr : Option String) (c : AgentClient),
         lookupA s.clients cid = some c → token ≠ "" →
         hdr ≠ some ("Bearer " ++ token) →
         fetch_task_checks token cid hdr s = .error .unauthorized) := by
  constructor
  · intro token s cid hdr h
    unfold fetch_task_checks
    rw [h]
  · intro token s cid hdr c h ht hh
    unfold fetch_task_checks
    rw [h]
    unfold require_agent_auth
    rw [if_neg (by simpa using ht), if_neg (by simpa using hh)]

/-- Witness for C10 at concrete inputs. -/
theorem fetch_task_unknown_before_auth_check :
    fetch_task_checks "tok" "ghost" none initState =
      .error (.notFound "unknown client")
    ∧ fetch_task_checks "tok" "a" none
        { initState with clients :=
            [("a", { client_id := "a", status := "idle", last_seen := 0 })] } =
      .error .unauthorized := by
  constructor
  · exact fetch_task_unknown_before_auth.1 "tok" initState "ghost" none rfl
  · exact fetch_task_unknown_before_auth.2 "tok" _ "a" none _ rfl
      (by decide) (by decide)

theorem pop_loop_nonpos (avail : Nat → Bool) (t : Int) (d start : Nat)
    (ha : avail start = false) (ht : t ≤ 0) :
    pop_loop avail t d start = (none, start) := by
  rw [pop_loop]
  rw [if_neg (by simp [ha]), if_pos (Or.inl ht)]

theorem pop_loop_avail (avail : Nat → Bool) (t : Int) (d start : Nat)
    (h : avail start = true) : pop_loop avail t d start = (some start, start) := by
  rw [pop_loop]
  rw [if_pos h]

theorem pop_loop_never (t : Int) (ht : 0 < t) : ∀ (k start : Nat),
    pop_loop (fun _ => false) t (start + k) start = (none, start + k) := by
  intro k
  induction k with
  | zero =>
    intro start
    rw [pop_loop]
    rw [if_neg (by simp), if_pos (Or.inr (by omega))]
    simp
  | succ k ih =>
    intro start
    rw [pop_loop]
    rw [if_neg (by simp), if_neg (by push_neg; constructor <;> omega)]
    have h2 := ih (start + 1)
    rw [show start + 1 + k = start + (k + 1) from by omega] at h2
    exact h2

/-- C5: a long poll against a queue that stays empty returns the "no
task" answer exactly when the (clamped, hence non-negative) wait budget
elapses — at or after `timeout` ticks and not before, never an error;
negative budgets are clamped to zero by `max(timeout, 0)`; and when a
task is available at a polling tick it is returned at that same tick. -/
theorem fetch_task_long_poll (t : Int) (start : Nat) :
    pop_agent_task_wait (fun _ => false) t start =
      (none, start + (max t 0).toNat)
    ∧ (∀ avail : Nat → Bool, avail start = true →
        pop_agent_task_wait avail t start = (some start, start)) := by
  constructor
  · unfold pop_agent_task_wait
    rcases le_or_lt t 0 with ht | ht
    · rw [pop_loop_nonpos _ t _ start rfl ht]
      rw [max_eq_right ht]
      simp
    · exact pop_loop_never t ht (max t 0).toNat start
  · intro avail h
    unfold pop_agent_task_wait
    exact pop_loop_avail avail t _ start h

/-- Witness for C5: budget 2 against an empty queue answers "no task"
at tick 2; an available task is handed out at tick 0. -/
theorem fetch_task_long_poll_check :
    pop_agent_task_wait (fun _ => false) 2 0 = (none, 2)
    ∧ pop_agent_task_wait (fun _ => true) 2 0 = (some 0, 0) := by
  constructor
  · have h := (fetch_task_long_poll 2 0).1
    simpa using h
  · exact (fetch_task_long_poll 2 0).2 (fun _ => true) rfl

theorem taskrec_id_eta (t : TaskRec) (tid : String)
    (h : t.task_id = some tid) : { t with task_id := some tid } = t := by
  cases t
  simp only [TaskRec.mk.injEq] at h ⊢
  simp [h]

/-- C9: a successful long-poll hand-off removes the queue head, creates
a running entry for the fetching client (with no delivery channel), and
leaves every client record — and the rest of the state — untouched. -/
theorem fetch_task_frame (now : Nat) (cid tid : String) (task : TaskRec)
    (rest : List TaskRec) (s : ServerState)
    (hp : s.pending = task :: rest) (ht : task.task_id = some tid)
    (hne : tid ≠ "") :
    (pop_agent_task_step now cid s).1 = some task
    ∧ (pop_agent_task_step now cid s).2.pending = rest
    ∧ lookupA (pop_agent_task_step now cid s).2.running tid =
        some ⟨cid, task, now, none⟩
    ∧ (pop_agent_task_step now cid s).2.clients = s.clients
    ∧ (pop_agent_task_step now cid s).2.wsConns = s.wsConns
    ∧ (pop_agent_task_step now cid s).2.wsIdle = s.wsIdle
    ∧ (pop_agent_task_step now cid s).2.results = s.results := by
  have hg : getOrGen task.task_id s = (tid, s) := by
    rw [ht]
    exact getOrGen_of_some tid s hne
  unfold pop_agent_task_step
  rw [hp]
  simp only [hg]
  rw [taskrec_id_eta task tid ht]
  simp [lookupA_insertA_self]

/-- Witness for C9 at a concrete state. -/
theorem fetch_task_frame_check :
    (pop_agent_task_step 3 "a"
      { initState with pending := [{ task_id := some "t1",
                                     zip_url := some "u" }],
                       clients := [("a", { client_id := "a",
                                           status := "idle",
                                           last_seen := 0 })] }).1 =
      some { task_id := some "t1", zip_url := some "u" } := by
  exact (fetch_task_frame 3 "a" "t1" _ [] _ rfl rfl (by decide)).1

theorem record_result_core_pending (now : Nat) (r : ResultRec)
    (s : ServerState) :
    (record_result_core now r s).pending = s.pending := by
  unfold record_result_core
  cases hL : lookupA s.clients r.client_id with
  | none => rfl
  | some c => rfl

theorem record_result_core_results (now : Nat) (r : ResultRec)
    (s : ServerState) :
    (record_result_core now r s).results = insertA s.results r.task_id r := by
  unfold record_result_core
  cases hL : lookupA s.clients r.client_id with
  | none => rfl
  | some c => rfl

theorem record_result_core_running (now : Nat) (r : ResultRec)
    (s : ServerState) :
    (record_result_core now r s).running = eraseA s.running r.task_id := by
  unfold record_result_core
  cases hL : lookupA s.clients r.client_id with
  | none => rfl
  | some c => rfl

theorem record_result_core_clients_isSome (now : Nat) (r : ResultRec)
    (s : ServerState) (cid2 : String)
    (h : (lookupA s.clients cid2).isSome) :
    (lookupA (record_result_core now r s).clients cid2).isSome := by
  unfold record_result_core
  cases hL : lookupA s.clients r.client_id with
  | none => exact h
  | some c => exact lookupA_insertA_isSome _ _ _ _ h

theorem record_result_core_clients_some (now : Nat) (r : ResultRec)
    (s : ServerState) (c : AgentClient)
    (hL : lookupA s.clients r.client_id = some c) :
    (record_result_core now r s).clients =
      insertA s.clients r.client_id
        { c with status := "idle", task_id := none, last_seen := now } := by
  unfold record_result_core
  rw [hL]

theorem record_result_core_results_nodup (now : Nat) (r : ResultRec)
    (s : ServerState) (h : keysNodup s.results) :
    keysNodup (record_result_core now r s).results := by
  rw [record_result_core_results]
  exact keysNodup_insertA _ _ _ h

/-- C4: recording a result twice for the same task identifier is
idempotent: afterwards exactly one stored result remains for the id (the
later one), the running entry is gone (the second removal is a no-op, so
the running table is unchanged by the second call), and the reporting
agent's record shows `idle` with a null task id.  The queue is assumed
empty so the re-dispatch after recording assigns nothing new. -/
theorem record_result_idempotent (f1 f2 n1 n2 : Nat) (r1 r2 : ResultRec)
    (s : ServerState) (hp : s.pending = [])
    (hid : r1.task_id = r2.task_id)
    (hnod : keysNodup s.results)
    (hc : (lookupA s.clients r2.client_id).isSome) :
    lookupA (record_task_result f2 n2 r2 (record_task_result f1 n1 r1 s)).results
        r2.task_id = some r2
    ∧ ((record_task_result f2 n2 r2 (record_task_result f1 n1 r1 s)).results.map
        Prod.fst).count r2.task_id = 1
    ∧ lookupA (record_task_result f2 n2 r2
        (record_task_result f1 n1 r1 s)).running r2.task_id = none
    ∧ (record_task_result f2 n2 r2 (record_task_result f1 n1 r1 s)).running =
        (record_task_result f1 n1 r1 s).running
    ∧ (lookupA (record_task_result f2 n2 r2
        (record_task_result f1 n1 r1 s)).clients r2.client_id).map
        (fun c => (c.status, c.task_id)) = some ("idle", none) := by
  have e1 : record_task_result f1 n1 r1 s = record_result_core n1 r1 s :=
    dispatch_tasks_pending_nil f1 n1 _
      (by rw [record_result_core_pending]; exact hp)
  have e2 : record_task_result f2 n2 r2 (record_task_result f1 n1 r1 s) =
      record_result_core n2 r2 (record_result_core n1 r1 s) := by
    rw [e1]
    exact dispatch_tasks_pending_nil f2 n2 _
      (by rw [record_result_core_pending, record_result_core_pending]
          exact hp)
  rw [e2, e1]
  have hsome2 : (lookupA (record_result_core n1 r1 s).clients
      r2.client_id).isSome :=
    record_result_core_clients_isSome n1 r1 s r2.client_id hc
  obtain ⟨c2, hc2⟩ := Option.isSome_iff_exists.mp hsome2
  refine ⟨?_, ?_, ?_, ?_, ?_⟩
  · rw [record_result_core_results]
    exact lookupA_insertA_self _ _ _
  · rw [record_result_core_results]
    refine count_keys_insertA _ _ _ ?_
    rw [record_result_core_results]
    exact keysNodup_insertA _ _ _ hnod
  · rw [record_result_core_running]
    exact lookupA_eraseA_self _ _
  · rw [record_result_core_running, record_result_core_running, ← hid,
        eraseA_eraseA]
  · rw [record_result_core_clients_some n2 r2 _ c2 hc2,
        lookupA_insertA_self]
    simp

/-- The concrete starting state of the C4 witness: agent `"a"` running
task `"t1"`. -/
def c4_state : ServerState :=
  { pending := [],
    running := [("t1", ⟨"a", { task_id := some "t1" }, 0, some "ws"⟩)],
    clients := [("a", { client_id := "a", status := "running",
                        task_id := some "t1", last_seen := 0 })],
    results := [], wsConns := [], wsIdle := [], freshCtr := 0 }

/-- Witness for C4: a concrete double submission. -/
theorem record_result_idempotent_check :
    lookupA (record_task_result 1 2
        { client_id := "a", task_id := "t1", status := "success",
          reason := "ok2" }
        (record_task_result 1 1
          { client_id := "a", task_id := "t1", status := "failed",
            reason := "ok1" }
          c4_state)).results "t1" =
      some { client_id := "a", task_id := "t1", status := "success",
             reason := "ok2" } := by
  exact (record_result_idempotent 1 1 1 2
    { client_id := "a", task_id := "t1", status := "failed",
      reason := "ok1" }
    { client_id := "a", task_id := "t1", status := "success",
      reason := "ok2" }
    c4_state rfl rfl List.nodup_nil (by decide)).1

/-- C7 (amended): enqueue rejects with 400 exactly when *neither* the
archive URL nor the inline payload is set (one of them suffices — both
set is also accepted); on acceptance it keeps a supplied non-empty id
or draws a fresh one, appends the task at the tail, and returns the id
with the pending count right after the append.  No push agent is
connected, so the trailing dispatch is a no-op. -/
theorem enqueue_task_behavior (fuel now : Nat) (p : EnqueueTaskPayload)
    (s : ServerState) (hconn : s.wsConns = []) :
    (pyStrSome p.zip_url = false → pyStrSome p.zip_base64 = false →
      enqueue_task fuel now p s =
        .error (.badRequest "zip_url or zip_base64 required"))
    ∧ (∀ t : String, p.task_id = some t → t ≠ "" →
        (pyStrSome p.zip_url || pyStrSome p.zip_base64) = true →
        enqueue_task fuel now p s =
          .ok ((t, s.pending.length + 1),
               { s with pending := s.pending ++ [enqueue_task_record p t] }))
    ∧ (p.task_id = none →
        (pyStrSome p.zip_url || pyStrSome p.zip_base64) = true →
        enqueue_task fuel now p s =
          .ok (("uuid-" ++ toString s.freshCtr, s.pending.length + 1),
               { s with freshCtr := s.freshCtr + 1,
                        pending := s.pending ++
                          [enqueue_task_record p
                            ("uuid-" ++ toString s.freshCtr)] })) := by
  refine ⟨?_, ?_, ?_⟩
  · intro h1 h2
    unfold enqueue_task
    rw [if_pos (by simp [h1, h2])]
  · intro t hpt hne hv
    unfold enqueue_task
    rw [if_neg (by cases hu : pyStrSome p.zip_url <;>
          cases hb : pyStrSome p.zip_base64 <;> simp_all)]
    have hg : getOrGen p.task_id s = (t, s) := by
      rw [hpt]
      exact getOrGen_of_some t s hne
    simp only [hg]
    rw [dispatch_tasks_no_conns fuel now
      { s with pending := s.pending ++ [enqueue_task_record p t] } hconn]
    simp
  · intro hpt hv
    unfold enqueue_task
    rw [if_neg (by cases hu : pyStrSome p.zip_url <;>
          cases hb : pyStrSome p.zip_base64 <;> simp_all)]
    have hg : getOrGen p.task_id s =
        ("uuid-" ++ toString s.freshCtr,
         { s with freshCtr := s.freshCtr + 1 }) := by
      rw [hpt]
      rfl
    simp only [hg]
    rw [dispatch_tasks_no_conns fuel now
      { s with freshCtr := s.freshCtr + 1,
               pending := s.pending ++
                 [enqueue_task_record p
                   ("uuid-" ++ toString s.freshCtr)] } hconn]
    simp

/-- Witness for C7's amended claim at concrete inputs. -/
theorem enqueue_task_behavior_check :
    enqueue_task 1 0 { task_id := some "t1" } initState =
      .error (.badRequest "zip_url or zip_base64 required")
    ∧ enqueue_task 1 0 { zip_url := some "u", task_id := some "t1" }
        initState =
      .ok (("t1", 1),
           { initState with
             pending := [enqueue_task_record
               { zip_url := some "u", task_id := some "t1" } "t1"] }) := by
  constructor
  · exact (enqueue_task_behavior 1 0 { task_id := some "t1" } initState
      rfl).1 rfl rfl
  · have h := (enqueue_task_behavior 1 0
      { zip_url := some "u", task_id := some "t1" } initState rfl).2.1
      "t1" rfl (by decide) (by decide)
    simpa using h

/-- Counterexample to C7 as stated: a descriptor carrying *both* an
archive URL and an inline base64 payload is accepted (the claim demands
a 400 unless exactly one is set). -/
theorem enqueue_task_both_set_accepted :
    enqueue_task 1 0 { zip_url := some "http://x/t.zip",
                       zip_base64 := some "QUJD",
                       task_id := some "t1" } initState =
      .ok (("t1", 1),
           { initState with
             pending := [enqueue_task_record
               { zip_url := some "http://x/t.zip",
                 zip_base64 := some "QUJD",
                 task_id := some "t1" } "t1"] }) := by
  rfl

/-- C1 (amended): in every reachable state the running table holds at
most one assignment per task identifier (it is a dict keyed by the id);
the stronger pending-plus-running population uniqueness of the original
claim fails, see the counterexample. -/
theorem running_at_most_one (s : ServerState) (h : Reachable s)
    (tid : String) : (s.running.map Prod.fst).count tid ≤ 1 :=
  List.nodup_iff_count_le_one.mp (reachable_running_nodup s h) tid

/-- Witness for C1's amended claim. -/
theorem running_at_most_one_check :
    (initState.running.map Prod.fst).count "t1" ≤ 1 :=
  running_at_most_one initState Reachable.init "t1"

/-- Counterexample to C1 as stated: enqueueing the same client-supplied
task identifier twice is accepted, so a reachable state carries "t1"
twice in the pending+running population. -/
theorem population_duplicate_reachable :
    Reachable (apply_event
        (.httpEnqueue { zip_url := some "u", task_id := some "t1" } 1 0)
        (apply_event
          (.httpEnqueue { zip_url := some "u", task_id := some "t1" } 1 0)
          initState))
    ∧ ¬ (population_ids (apply_event
        (.httpEnqueue { zip_url := some "u", task_id := some "t1" } 1 0)
        (apply_event
          (.httpEnqueue { zip_url := some "u", task_id := some "t1" } 1 0)
          initState))).Nodup := by
  constructor
  · exact Reachable.step _ (Reachable.step _ Reachable.init)
  · decide

/-- C6 (amended): when every heartbeat an agent sends is well-formed
(status `running` comes with a task id, `idle`/`offline` with none),
every reachable client record satisfies the status/task-id invariant;
the unrestricted claim fails because the heartbeat handlers copy the
client-supplied fields verbatim (see the counterexample). -/
theorem clients_invariant_wf (s : ServerState) (h : ReachableWF s) :
    ∀ p ∈ s.clients,
      (p.2.status = "running" → p.2.task_id ≠ none) ∧
      ((p.2.status = "idle" ∨ p.2.status = "offline") →
        p.2.task_id = none) :=
  reachableWF_clients_ok s h

/-- Witness for C6's amended claim: the record created by a register
event satisfies the invariant. -/
theorem clients_invariant_wf_check :
    ("idle" = "running" → (none : Option String) ≠ none) ∧
    (("idle" = "idle" ∨ "idle" = "offline") →
      (none : Option String) = none) := by
  have h := clients_invariant_wf _
    (ReachableWF.step (.httpRegister { client_id := some "a" } 0)
      trivial ReachableWF.init)
  exact h ("a", { client_id := "a", hostname := "", platform := "",
                  python_version := "", headless := none,
                  status := "idle", task_id := none, last_seen := 0 })
    (by decide)

/-- Counterexample to C6 as stated: an HTTP heartbeat carrying status
`running` with no task id is copied verbatim into the registry, so the
resulting reachable state violates the invariant. -/
theorem clients_invariant_ce :
    Reachable (apply_event
        (.httpHeartbeat { client_id := "a", status := "running",
                          task_id := none } 1)
        (apply_event (.httpRegister { client_id := some "a" } 0) initState))
    ∧ ¬ clientsOkL (apply_event
        (.httpHeartbeat { client_id := "a", status := "running",
                          task_id := none } 1)
        (apply_event (.httpRegister { client_id := some "a" } 0)
          initState)).clients := by
  constructor
  · exact Reachable.step _ (Reachable.step _ Reachable.init)
  · decide

/-- C8: when a push connection drops while tasks delivered over it are
still running, the coordinator removes the agent from the connected and
idle sets, marks its record offline with a null task id, removes every
ws-channel running entry of that agent, and requeues each of those
tasks at the front of the pending queue.  With no other idle agent the
re-dispatch inside the handler assigns nothing, so the requeued tasks
are still at the front afterwards. -/
theorem ws_drop_requeues (fuel now : Nat) (cid : String) (s : ServerState)
    (ca : AgentClient) (hidle : s.wsIdle = [])
    (hca : lookupA s.clients cid = some ca) :
    lookupA (drop_ws_connection (fuel + 1) now cid s).wsConns cid = none
    ∧ (drop_ws_connection (fuel + 1) now cid s).wsIdle = []
    ∧ lookupA (drop_ws_connection (fuel + 1) now cid s).clients cid =
        some { ca with status := "offline", task_id := none,
                       last_seen := now }
    ∧ (drop_ws_connection (fuel + 1) now cid s).running =
        s.running.filter (fun p => !(ws_match cid p))
    ∧ (drop_ws_connection (fuel + 1) now cid s).pending =
        ((s.running.filter (ws_match cid)).map
          (fun p => p.2.task)).reverse ++ s.pending := by
  have hstate : drop_ws_connection (fuel + 1) now cid s =
      { s with
        pending := ((s.running.filter (ws_match cid)).map
          (fun p => p.2.task)).reverse ++ s.pending,
        running := s.running.filter (fun p => !(ws_match cid p)),
        clients :=
          match lookupA s.clients cid with
          | some c => insertA s.clients cid
              { c with status := "offline", task_id := none,
                       last_seen := now }
          | none => s.clients,
        wsConns := eraseA s.wsConns cid,
        wsIdle := delSet s.wsIdle cid } := by
    simp only [drop_ws_connection, drop_ws_core_eq]
    split
    · rfl
    · refine dispatch_tasks_no_idle fuel now _ ?_
      show delSet s.wsIdle cid = []
      rw [hidle]
      rfl
  rw [hstate]
  refine ⟨lookupA_eraseA_self _ _, ?_, ?_, rfl, rfl⟩
  · show delSet s.wsIdle cid = []
    rw [hidle]
    rfl
  · show lookupA
      (match lookupA s.clients cid with
       | some c => insertA s.clients cid
           { c with status := "offline", task_id := none,
                    last_seen := now }
       | none => s.clients) cid =
      some { ca with status := "offline", task_id := none,
                     last_seen := now }
    rw [hca]
    exact lookupA_insertA_self _ _ _

/-- The concrete starting state of the C8 witness: push agent `"a"`
running task `"t1"` over its socket. -/
def c8_state : ServerState :=
  { pending := [],
    running := [("t1", ⟨"a", { task_id := some "t1" }, 0, some "ws"⟩)],
    clients := [("a", { client_id := "a", status := "running",
                        task_id := some "t1", last_seen := 0 })],
    results := [], wsConns := [("a", true)], wsIdle := [], freshCtr := 0 }

/-- Witness for C8 at a concrete state. -/
theorem ws_drop_requeues_check :
    lookupA (drop_ws_connection 1 5 "a" c8_state).wsConns "a" = none
    ∧ (drop_ws_connection 1 5 "a" c8_state).pending =
        [{ task_id := some "t1" }] := by
  have h := ws_drop_requeues 0 5 "a" c8_state
    { client_id := "a", status := "running", task_id := some "t1",
      last_seen := 0 } rfl rfl
  refine ⟨h.1, ?_⟩
  rw [h.2.2.2.2]
  rfl

/-- C3 (amended): on a `task_ack` with `accepted: false` the coordinator
requeues the task at the front and calls `_mark_client_idle` — the
agent is returned to the idle set rather than dropped from the
idle/connected set — and then re-dispatches; with the rejecting agent as
the only idle connected agent, the re-dispatch hands that same task
straight back to it.  Afterwards the agent is still connected and is
running the very task it rejected. -/
theorem task_ack_reject_marks_idle (now st0 n : Nat) (a tid : String)
    (t : TaskRec) (ca : AgentClient) (R : List (String × ResultRec))
    (ht : t.task_id = some tid) (hne : tid ≠ "") :
    agent_ws_task_ack 4 now a (some tid) false
      { pending := [], running := [(tid, ⟨a, t, st0, some "ws"⟩)],
        clients := [(a, ca)], results := R, wsConns := [(a, true)],
        wsIdle := [], freshCtr := n } =
      { pending := [], running := [(tid, ⟨a, t, now, some "ws"⟩)],
        clients := [(a, { ca with
                          status := "running",
                          task_id := some tid,
                          last_seen := now })],
        results := R, wsConns := [(a, true)], wsIdle := [],
        freshCtr := n } := by
  have htid : (tid == "") = false := by simpa using hne
  have heta := taskrec_id_eta t tid ht
  simp [agent_ws_task_ack, mark_client_idle, dispatch_tasks, deliver_all,
    dispatch_assign, assign_one, getOrGen, genId, pyStrSome, lookupA,
    insertA, updEntry, eraseA, notKeyB, addSet, delSet, ws_match,
    drop_ws_connection, drop_ws_core, htid, ht, heta]

/-- The concrete starting state of the C3 theorems: push agent `"a"`
running task `"t1"`. -/
def c3_state : ServerState :=
  { pending := [],
    running := [("t1", ⟨"a", { task_id := some "t1" }, 0, some "ws"⟩)],
    clients := [("a", { client_id := "a", status := "running",
                        task_id := some "t1", last_seen := 0 })],
    results := [], wsConns := [("a", true)], wsIdle := [], freshCtr := 0 }

/-- Witness for C3's amended claim at concrete inputs. -/
theorem task_ack_reject_marks_idle_check :
    agent_ws_task_ack 4 7 "a" (some "t1") false c3_state =
      { pending := [],
        running := [("t1", ⟨"a", { task_id := some "t1" }, 7, some "ws"⟩)],
        clients := [("a", { client_id := "a", status := "running",
                            task_id := some "t1", last_seen := 7 })],
        results := [], wsConns := [("a", true)], wsIdle := [],
        freshCtr := 0 } := by
  exact task_ack_reject_marks_idle 7 0 0 "a" "t1" { task_id := some "t1" }
    { client_id := "a", status := "running", task_id := some "t1",
      last_seen := 0 } [] rfl (by decide)

/-- Counterexample to C3 as stated: after a `task_ack` with
`accepted: false` the agent is still in the connected set (the claim
demands it be dropped from the idle/connected set). -/
theorem task_ack_reject_agent_not_dropped :
    lookupA (agent_ws_task_ack 4 7 "a" (some "t1") false
      c3_state).wsConns "a" = some true := by
  rfl

/-- C2: when the push delivery send to an agent fails, the coordinator
requeues the affected task at the front of the pending queue, drops the
failing agent from the connected and idle sets (marking it offline),
and re-runs dispatch.  First conjunct: with no other agent, the task
sits at the front of the queue afterwards and the agent is gone from
the connected/idle sets.  Second conjunct: with a second, healthy idle
agent, the re-run dispatch completes delivery — the task ends up
running on the other agent.  The handler swallows the send failure, so
nothing is surfaced to any client.  (The failing path also leaves a
duplicate of the task behind — visible as `[t, t]` and the leftover
`[t]` — which claim C1 accounts for.) -/
theorem delivery_failure_requeues (now n : Nat) (a b tid : String)
    (t : TaskRec) (ca cb : AgentClient)
    (hab : a ≠ b) (ht : t.task_id = some tid) (hne : tid ≠ "") :
    dispatch_tasks 6 now
      { pending := [t], running := [], clients := [(a, ca)],
        results := [], wsConns := [(a, false)], wsIdle := [a],
        freshCtr := n } =
      { pending := [t, t], running := [],
        clients := [(a, { ca with
                          status := "offline",
                          task_id := none,
                          last_seen := now })],
        results := [], wsConns := [], wsIdle := [], freshCtr := n }
    ∧ dispatch_tasks 6 now
      { pending := [t], running := [], clients := [(a, ca), (b, cb)],
        results := [], wsConns := [(a, false), (b, true)],
        wsIdle := [a, b], freshCtr := n } =
      { pending := [t], running := [(tid, ⟨b, t, now, some "ws"⟩)],
        clients := [(a, { ca with
                          status := "offline",
                          task_id := none,
                          last_seen := now }),
                    (b, { cb with
                          status := "running",
                          task_id := some tid,
                          last_seen := now })],
        results := [], wsConns := [(b, true)], wsIdle := [],
        freshCtr := n } := by
  have htid : (tid == "") = false := by simpa using hne
  have hba : b ≠ a := fun h => hab h.symm
  have hab1 : (a == b) = false := by simpa using hab
  have hab2 : (b == a) = false := by simpa using hba
  have heta := taskrec_id_eta t tid ht
  constructor
  · simp [dispatch_tasks, deliver_all, dispatch_assign, assign_one,
      drop_ws_connection, drop_ws_core, mark_client_idle, getOrGen,
      genId, pyStrSome, lookupA, insertA, updEntry, eraseA, notKeyB,
      addSet, delSet, ws_match, List.isEmpty, htid, ht, heta]
  · simp [dispatch_tasks, deliver_all, dispatch_assign, assign_one,
      drop_ws_connection, drop_ws_core, mark_client_idle, getOrGen,
      genId, pyStrSome, lookupA, insertA, updEntry, eraseA, notKeyB,
      addSet, delSet, ws_match, List.isEmpty, List.filter_cons,
      List.filter_nil, htid, ht, heta, hab, hba, hab1, hab2]

/-- Witness for C2 at concrete inputs: the send to `"a"` fails, the
task is requeued and the re-run dispatch delivers it to `"b"`. -/
theorem delivery_failure_requeues_check :
    dispatch_tasks 6 9
      { pending := [{ task_id := some "t1" }], running := [],
        clients := [("a", { client_id := "a", status := "idle",
                            last_seen := 0 }),
                    ("b", { client_id := "b", status := "idle",
                            last_seen := 0 })],
        results := [], wsConns := [("a", false), ("b", true)],
        wsIdle := ["a", "b"], freshCtr := 0 } =
      { pending := [{ task_id := some "t1" }],
        running := [("t1", ⟨"b", { task_id := some "t1" }, 9,
          some "ws"⟩)],
        clients := [("a", { client_id := "a", status := "offline",
                            task_id := none, last_seen := 9 }),
                    ("b", { client_id := "b", status := "running",
                            task_id := some "t1", last_seen := 9 })],
        results := [], wsConns := [("b", true)], wsIdle := [],
        freshCtr := 0 } := by
  exact (delivery_failure_requeues 9 0 "a" "b" "t1"
    { task_id := some "t1" }
    { client_id := "a", status := "idle", last_seen := 0 }
    { client_id := "b", status := "idle", last_seen := 0 }
    (by decide) rfl (by decide)).2
